import Mathlib

/-!
DeviceVerificationFlow (nheko, `src/encryption/DeviceVerificationFlow.h`)

A shallow embedding of the verification session declared in
`DeviceVerificationFlow.h`: its enumerations, its data members with their
in-class initializers, the member functions whose bodies the header gives
(`error`, `isDeviceVerification`, `isMultiDeviceVerification`, `cancel`,
`setState`), and the signals those bodies emit.  Qt signals are modelled as a
list of emitted `Signal`s returned next to the new session.  The header only
declares the factory functions, the constructor and the message handlers; where
a property needs what they do, they are modelled from the specification, and
each such definition says so.
-/

namespace DeviceVerificationFlow

/-! ## Enumerations (header lines 78-107) -/

/-- The enum `State` of lines 78-88, in declaration order. -/
inductive State where
  | PromptStartVerification
  | WaitingForOtherToAccept
  | WaitingForKeys
  | CompareEmoji
  | CompareNumber
  | WaitingForMac
  | Success
  | Failed
  deriving DecidableEq, Repr

/-- The enum `Type` of lines 91-95 (`Type` is a reserved word of Lean, hence the
longer name). -/
inductive FlowType where
  | ToDevice
  | RoomMsg
  deriving DecidableEq, Repr

/-- The enum `Error` of lines 97-107, in declaration order. -/
inductive Error where
  | UnknownMethod
  | MismatchedCommitment
  | MismatchedSAS
  | KeyMismatch
  | Timeout
  | User
  | AcceptedOnOtherDevice
  | OutOfOrder
  deriving DecidableEq, Repr

/-- The two values of `mtx::events::msg::SASMethods` the header mentions or the
flow can negotiate. -/
inductive SASMethods where
  | Decimal
  | Emoji
  deriving DecidableEq, Repr

/-- The signals of lines 161-164. -/
inductive Signal where
  | refreshProfile
  | stateChanged
  | errorChanged
  deriving DecidableEq, Repr

/-! ## Data members (header lines 200-228) -/

/-- The data members of the class.  A pointer is the handle it points to, or
`none` for `nullptr`; the types of other libraries (`mtx::identifiers::User`,
`UserKeyCache`, `mtx::common::Relation`) are kept as their textual form.  The
default values are the in-class initializers of the header; a member declared
without one has no default here either. -/
structure Flow where
  transaction_id : String
  sender : Bool
  type : FlowType
  toClient : String
  deviceId : String
  deviceIds : List String
  our_trusted_master_key : String
  method : SASMethods := SASMethods.Emoji
  timeout : Option Nat := none
  sas : Option Nat
  mac_method : String
  commitment : String
  canonical_json : String
  sasList : List Int
  their_keys : String
  model_ : Option Nat
  relation : String
  state_ : State := State.PromptStartVerification
  error_ : Error := Error.UnknownMethod
  isMacVerified : Bool := false
  keySent : Bool := false
  macSent : Bool := false
  acceptSent : Bool := false
  startSent : Bool := false
  deriving DecidableEq, Repr

/-- The members the header declares without an initializer: whoever creates
the object has to supply them. -/
structure Uninitialised where
  transaction_id : String
  sender : Bool
  type : FlowType
  toClient : String
  deviceId : String
  deviceIds : List String
  our_trusted_master_key : String
  sas : Option Nat
  mac_method : String
  commitment : String
  canonical_json : String
  sasList : List Int
  their_keys : String
  model_ : Option Nat
  relation : String
  deriving DecidableEq, Repr

/-- A session as its declaration creates it: every member with an in-class
initializer (lines 211-212 and 223-228) holds that initial value, the other
members hold what the creator supplied. -/
def newSession (u : Uninitialised) : Flow :=
  { transaction_id := u.transaction_id
    sender := u.sender
    type := u.type
    toClient := u.toClient
    deviceId := u.deviceId
    deviceIds := u.deviceIds
    our_trusted_master_key := u.our_trusted_master_key
    sas := u.sas
    mac_method := u.mac_method
    commitment := u.commitment
    canonical_json := u.canonical_json
    sasList := u.sasList
    their_keys := u.their_keys
    model_ := u.model_
    relation := u.relation }

/-! ## Member functions with a body in the header -/

/-- Line 137: `Error error() { return error_; }`. -/
def error (s : Flow) : Error := s.error_

/-- Lines 146-149: `return this->type == DeviceVerificationFlow::Type::ToDevice;`. -/
def isDeviceVerification (s : Flow) : Bool :=
  s.type == FlowType.ToDevice

/-- Line 151: `return deviceIds.size() > 1;`. -/
def isMultiDeviceVerification (s : Flow) : Bool :=
  decide (s.deviceIds.length > 1)

/-- Lines 172-178: assign and emit `stateChanged` when the new state differs
from the stored one, do nothing otherwise.  The result is the session after the
call and the signals emitted by it. -/
def setState (state : State) (s : Flow) : Flow × List Signal :=
  if state ≠ s.state_ then
    ({ s with state_ := state }, [Signal.stateChanged])
  else
    (s, [])

/-- Line 159: `void cancel() { cancelVerification(User); }`.  The body of
`cancelVerification` (declared at line 192) is not part of the header, so it is
an argument: any function of the error code and the session. -/
def cancel {α : Type} (cancelVerification : Error → Flow → α) (s : Flow) : α :=
  cancelVerification Error.User s

/-! ## Sequences of calls -/

/-- Two calls one after the other on the same object: the second runs on the
session the first left, the emitted signals are collected in order. -/
def andThen (f g : Flow → Flow × List Signal) (s : Flow) : Flow × List Signal :=
  ((g (f s).1).1, (f s).2 ++ (g (f s).1).2)

/-- A sequence of `setState` calls, one per requested state, in order. -/
def setStates : List State → Flow → Flow × List Signal
  | [], s => (s, [])
  | t :: ts, s => andThen (setState t) (setStates ts) s

/-! ## The state machine around `setState`

`setState` is private and is called by the message handlers and local actions
declared at lines 155-157 and 180-198; their bodies are not in the header. -/

/-- The five public factory functions of lines 110-133, with what their
arguments say about the peer: the sending device of the inbound message
(`msg.from_device`), the other user, the event or transaction id, the device
list; `master_key` is the trusted master key a user verification looks up. -/
inductive Construction where
  | NewInRoomVerification (from_device other_user event_id : String)
  | NewToDeviceVerificationRequest (from_device other_user txn_id : String)
  | NewToDeviceVerificationStart (from_device other_user txn_id : String)
  | InitiateUserVerification (userid master_key : String)
  | InitiateDeviceVerification (userid : String) (devices : List String)
  deriving DecidableEq, Repr

/-- Modelled from the spec: the private constructor of lines 167-171, whose
body is not among the sources: it stores the flow kind, the peer user and the
candidate devices it is given; the peer device is known when there is exactly
one candidate (§3, `peer_device` "may be unresolved" otherwise); every other
member starts empty or at its in-class initializer. -/
def construct (flow_type : FlowType) (model : Option Nat) (userID : String)
    (deviceIds_ : List String) : Flow :=
  newSession
    { transaction_id := ""
      sender := false
      type := flow_type
      toClient := userID
      deviceId := match deviceIds_ with
        | [d] => d
        | _ => ""
      deviceIds := deviceIds_
      our_trusted_master_key := ""
      sas := none
      mac_method := ""
      commitment := ""
      canonical_json := ""
      sasList := []
      their_keys := ""
      model_ := model
      relation := "" }

/-- Modelled from the spec: the five construction modes of §4.2 (the bodies of
the factory functions are not among the sources).  Modes 1 to 3 answer an
inbound message and target the one device it came from; mode 4 targets the
user's master key and no device; mode 5 targets every device it is given.
Mode 1 is `ThreadedMessage`, the others `DirectMessage`; modes 4 and 5 are the
initiator. -/
def create : Construction → Flow
  | .NewInRoomVerification from_device other_user event_id =>
    { construct FlowType.RoomMsg (some 0) other_user [from_device] with
      relation := event_id }
  | .NewToDeviceVerificationRequest from_device other_user txn_id =>
    { construct FlowType.ToDevice none other_user [from_device] with
      transaction_id := txn_id }
  | .NewToDeviceVerificationStart from_device other_user txn_id =>
    { construct FlowType.ToDevice none other_user [from_device] with
      transaction_id := txn_id }
  | .InitiateUserVerification userid master_key =>
    { construct FlowType.ToDevice (some 0) userid [] with
      sender := true
      our_trusted_master_key := master_key }
  | .InitiateDeviceVerification userid devices =>
    { construct FlowType.ToDevice none userid devices with
      sender := true }

/-! ## Glare resolution (header lines 57-58 and 180) -/

/-- One side of a verification: its user identifier and device identifier. -/
structure Endpoint where
  user : String
  device : String
  deriving DecidableEq, Repr

/-- Modelled from the spec: "ordinal string comparison" (§4.1) on the characters
of two strings: the first position where they differ decides by character
code, and a string is smaller than every proper extension of it. -/
def ordinalLtAux : List Char → List Char → Bool
  | _, [] => false
  | [], _ :: _ => true
  | x :: xs, y :: ys => decide (x < y) || (x == y && ordinalLtAux xs ys)

/-- Modelled from the spec: ordinal string comparison of two identifiers. -/
def ordinalLt (a b : String) : Bool :=
  ordinalLtAux a.data b.data

/-- Modelled from the spec: the composite-key comparison of §4.1, "ordinal
string comparison" of the user identifiers with the device identifiers as the
tie-break (the body of `handleStartMessage`, line 180, is not among the
sources). -/
def compositeKeyLt (a b : Endpoint) : Bool :=
  ordinalLt a.user b.user || (a.user == b.user && ordinalLt a.device b.device)

/-- Modelled from the spec: the glare rule a side applies when the peer's start
arrives after it sent its own (the body of `handleStartMessage`, line 180, is
not among the sources): "the side whose composite key is lexicographically
smaller discards its own outbound start and accepts the other's; the side with
the larger key keeps its own start" (§4.1). -/
def discardsOwnStart (own peer : Endpoint) : Bool :=
  compositeKeyLt own peer

/-- The endpoint whose start a side takes as the one in force after glare
resolution: the peer's when it discards its own, its own otherwise. -/
def keptStart (own peer : Endpoint) : Endpoint :=
  if discardsOwnStart own peer then peer else own

/-! ## Concrete sessions and endpoints used in the examples -/

/-- An endpoint of the user alice. -/
def alice : Endpoint := { user := "@alice:example.org", device := "AAAA" }

/-- An endpoint of the user bob. -/
def bob : Endpoint := { user := "@bob:example.org", device := "BBBB" }

/-! ## Properties of the member functions given in the header -/

/-- What `setState` returns, by whether the requested state is new. -/
theorem setState_of_ne (t : State) (s : Flow) (h : t ≠ s.state_) :
    setState t s = ({ s with state_ := t }, [Signal.stateChanged]) := by
  simp [setState, h]

/-- A call of `setState` with the stored state does nothing. -/
theorem setState_of_eq (t : State) (s : Flow) (h : t = s.state_) :
    setState t s = (s, []) := by
  simp [setState, h]

/-- The session after `setState t` is the old session with `state_` replaced by
`t`, in both branches. -/
theorem setState_fst (t : State) (s : Flow) :
    (setState t s).1 = { s with state_ := t } := by
  by_cases h : t = s.state_
  · rw [setState_of_eq t s h]
    subst h
    rfl
  · rw [setState_of_ne t s h]

/-- C1: `isMultiDeviceVerification` is true exactly when the candidate device
list `deviceIds` holds more than one identifier; it is false for the empty list
and for a list of exactly one device. -/
theorem isMultiDeviceVerification_iff (s : Flow) :
    (isMultiDeviceVerification s = true ↔ s.deviceIds.length > 1) ∧
    (s.deviceIds = [] → isMultiDeviceVerification s = false) ∧
    (∀ d : String, s.deviceIds = [d] → isMultiDeviceVerification s = false) := by
  refine ⟨by simp [isMultiDeviceVerification], ?_, ?_⟩
  · intro h
    simp [isMultiDeviceVerification, h]
  · intro d h
    simp [isMultiDeviceVerification, h]

/-- C2: `isDeviceVerification` is true exactly when the flow kind is `ToDevice`,
false when it is `RoomMsg`, and two sessions with the same flow kind get the
same answer whatever their other members hold. -/
theorem isDeviceVerification_iff (s s' : Flow) :
    (isDeviceVerification s = true ↔ s.type = FlowType.ToDevice) ∧
    (s.type = FlowType.RoomMsg → isDeviceVerification s = false) ∧
    (s'.type = s.type → isDeviceVerification s' = isDeviceVerification s) := by
  refine ⟨by simp [isDeviceVerification], ?_, ?_⟩
  · intro h
    simp [isDeviceVerification, h]
  · intro h
    simp [isDeviceVerification, h]

/-- C3: `cancel` is exactly `cancelVerification(User)`, whatever
`cancelVerification` does and whatever the session holds: the error code it
hands over is `User`, never `Timeout` nor any other error kind. -/
theorem cancel_hands_over_User {α : Type} (cancelVerification : Error → Flow → α)
    (s : Flow) :
    cancel cancelVerification s = cancelVerification Error.User s ∧
    cancel (fun error_code _ => error_code) s = Error.User ∧
    cancel (fun error_code _ => error_code) s ≠ Error.Timeout ∧
    ∀ e : Error, e ≠ Error.User → cancel (fun error_code _ => error_code) s ≠ e := by
  refine ⟨rfl, rfl, by simp [cancel], ?_⟩
  intro e he h
  exact he (by simpa [cancel] using h.symm)

/-- C4: a newly created session is in state `PromptStartVerification`, with
`isMacVerified` false and none of `keySent`, `macSent`, `acceptSent`,
`startSent` set, whatever the members without an initializer hold. -/
theorem newSession_initial (u : Uninitialised) :
    (newSession u).state_ = State.PromptStartVerification ∧
    (newSession u).isMacVerified = false ∧
    (newSession u).keySent = false ∧
    (newSession u).macSent = false ∧
    (newSession u).acceptSent = false ∧
    (newSession u).startSent = false :=
  ⟨rfl, rfl, rfl, rfl, rfl, rfl⟩

/-- C8: `setState` changes only the member `state_`: the session after the call
is the session before it with `state_` replaced, so `transaction_id`,
`commitment`, `canonical_json`, `error_`, `isMacVerified` and the four progress
flags are what they were. -/
theorem setState_frame (t : State) (s : Flow) :
    (setState t s).1 = { s with state_ := (setState t s).1.state_ } ∧
    (setState t s).1.transaction_id = s.transaction_id ∧
    (setState t s).1.commitment = s.commitment ∧
    (setState t s).1.canonical_json = s.canonical_json ∧
    (setState t s).1.error_ = s.error_ ∧
    (setState t s).1.isMacVerified = s.isMacVerified ∧
    (setState t s).1.keySent = s.keySent ∧
    (setState t s).1.macSent = s.macSent ∧
    (setState t s).1.acceptSent = s.acceptSent ∧
    (setState t s).1.startSent = s.startSent := by
  rw [setState_fst]
  exact ⟨rfl, rfl, rfl, rfl, rfl, rfl, rfl, rfl, rfl, rfl⟩

/-- C9: after `setState t` the state is `t`; `stateChanged` is emitted exactly
once when `t` differs from the previous state and not at all when it equals it
(the session is then untouched); two calls `setState t` in a row give the same
session and the same signals as one. -/
theorem setState_notifies_on_change (t : State) (s : Flow) :
    (setState t s).1.state_ = t ∧
    (t ≠ s.state_ → (setState t s).2 = [Signal.stateChanged]) ∧
    (t = s.state_ → (setState t s).2 = [] ∧ (setState t s).1 = s) ∧
    andThen (setState t) (setState t) s = setState t s := by
  refine ⟨by rw [setState_fst], ?_, ?_, ?_⟩
  · intro h
    rw [setState_of_ne t s h]
  · intro h
    rw [setState_of_eq t s h]
    exact ⟨rfl, rfl⟩
  · have h2 : setState t (setState t s).1 = ((setState t s).1, []) :=
      setState_of_eq t _ (by rw [setState_fst])
    simp [andThen, h2]

/-- C10: `error` returns the stored error kind whatever the state is: changing
the state, by assignment or by `setState`, does not change its result; for a
newly created session, which is in `PromptStartVerification` and not in
`Failed`, it returns `UnknownMethod`. -/
theorem error_independent_of_state (s : Flow) (t : State) (u : Uninitialised) :
    error s = s.error_ ∧
    error { s with state_ := t } = error s ∧
    error (setState t s).1 = error s ∧
    error (newSession u) = Error.UnknownMethod ∧
    (newSession u).state_ = State.PromptStartVerification ∧
    (newSession u).state_ ≠ State.Failed := by
  refine ⟨rfl, rfl, ?_, rfl, rfl, ?_⟩
  · rw [setState_fst]
    rfl
  · simp [newSession]

/-! ## State changes along the table -/

/-- A sequence of `setState` calls leaves the flow kind and the candidate
devices as they were. -/
theorem setStates_frame (ts : List State) (s : Flow) :
    (setStates ts s).1.type = s.type ∧ (setStates ts s).1.deviceIds = s.deviceIds := by
  induction ts generalizing s with
  | nil => exact ⟨rfl, rfl⟩
  | cons t ts ih =>
    have h := ih (setState t s).1
    rw [setState_fst] at h
    simp only [setStates, andThen]
    rw [setState_fst]
    exact h

/-- C6: a session created by one of the factory functions, after any sequence
of `setState` calls, is a device verification whenever it is a multi-device
verification: more than one candidate device goes with flow kind `ToDevice`. -/
theorem multi_device_is_device_verification (c : Construction) (ts : List State)
    (h : isMultiDeviceVerification (setStates ts (create c)).1 = true) :
    isDeviceVerification (setStates ts (create c)).1 = true := by
  have hf := setStates_frame ts (create c)
  simp only [isMultiDeviceVerification, isDeviceVerification, hf.1, hf.2] at h ⊢
  cases c <;> simp_all [create, construct, newSession]

/-- C6, witness: a verification started against two devices of bob. -/
theorem multi_device_is_device_verification_witness :
    isMultiDeviceVerification
        (setStates [State.WaitingForOtherToAccept]
          (create (Construction.InitiateDeviceVerification "@bob:example.org"
            ["BBBB", "CCCC"]))).1 = true ∧
    isDeviceVerification
        (setStates [State.WaitingForOtherToAccept]
          (create (Construction.InitiateDeviceVerification "@bob:example.org"
            ["BBBB", "CCCC"]))).1 = true :=
  ⟨by decide,
   multi_device_is_device_verification
     (Construction.InitiateDeviceVerification "@bob:example.org" ["BBBB", "CCCC"])
     [State.WaitingForOtherToAccept] (by decide)⟩

/-! ## Glare resolution -/

/-- No string is ordinally smaller than itself. -/
theorem ordinalLtAux_irrefl (xs : List Char) : ordinalLtAux xs xs = false := by
  induction xs with
  | nil => rfl
  | cons x xs ih => simp [ordinalLtAux, ih]

/-- Ordinal comparison never holds in both directions. -/
theorem ordinalLtAux_asymm (xs ys : List Char) (h : ordinalLtAux xs ys = true) :
    ordinalLtAux ys xs = false := by
  induction xs generalizing ys with
  | nil =>
    cases ys with
    | nil => rfl
    | cons y ys => rfl
  | cons x xs ih =>
    cases ys with
    | nil => simp [ordinalLtAux] at h
    | cons y ys =>
      simp only [ordinalLtAux, Bool.or_eq_true, Bool.and_eq_true, decide_eq_true_eq,
        beq_iff_eq] at h
      simp only [ordinalLtAux, Bool.or_eq_false_iff, Bool.and_eq_false_imp,
        decide_eq_false_iff_not, beq_iff_eq]
      rcases h with h | ⟨h, h'⟩
      · exact ⟨not_lt_of_lt h, fun e => absurd h (by rw [e]; exact lt_irrefl _)⟩
      · exact ⟨by rw [h]; exact lt_irrefl _, fun _ => ih ys h'⟩

/-- Two different strings are ordinally comparable, one way or the other. -/
theorem ordinalLtAux_total (xs ys : List Char) (h : xs ≠ ys) :
    ordinalLtAux xs ys = true ∨ ordinalLtAux ys xs = true := by
  induction xs generalizing ys with
  | nil =>
    cases ys with
    | nil => exact absurd rfl h
    | cons y ys => exact Or.inl rfl
  | cons x xs ih =>
    cases ys with
    | nil => exact Or.inr rfl
    | cons y ys =>
      simp only [ordinalLtAux, Bool.or_eq_true, Bool.and_eq_true, decide_eq_true_eq,
        beq_iff_eq]
      rcases lt_trichotomy x y with hxy | hxy | hxy
      · exact Or.inl (Or.inl hxy)
      · have hne : xs ≠ ys := fun e => h (by rw [hxy, e])
        rcases ih ys hne with h' | h'
        · exact Or.inl (Or.inr ⟨hxy, h'⟩)
        · exact Or.inr (Or.inr ⟨hxy.symm, h'⟩)
      · exact Or.inr (Or.inl hxy)

/-- The composite key is never smaller than itself. -/
theorem compositeKeyLt_irrefl (a : Endpoint) : compositeKeyLt a a = false := by
  simp [compositeKeyLt, ordinalLt, ordinalLtAux_irrefl]

/-- The composite-key comparison never holds in both directions. -/
theorem compositeKeyLt_asymm (a b : Endpoint) (h : compositeKeyLt a b = true) :
    compositeKeyLt b a = false := by
  simp only [compositeKeyLt, ordinalLt, Bool.or_eq_true, Bool.and_eq_true, beq_iff_eq] at h
  simp only [compositeKeyLt, ordinalLt, Bool.or_eq_false_iff, Bool.and_eq_false_imp,
    beq_iff_eq]
  rcases h with h | ⟨hu, hd⟩
  · refine ⟨ordinalLtAux_asymm _ _ h, fun e => ?_⟩
    rw [e, ordinalLtAux_irrefl] at h
    exact absurd h (by decide)
  · refine ⟨?_, fun _ => ordinalLtAux_asymm _ _ hd⟩
    rw [hu]
    exact ordinalLtAux_irrefl _

/-- Two endpoints that differ in the user or in the device are comparable. -/
theorem compositeKeyLt_total (a b : Endpoint) (h : a ≠ b) :
    compositeKeyLt a b = true ∨ compositeKeyLt b a = true := by
  simp only [compositeKeyLt, ordinalLt, Bool.or_eq_true, Bool.and_eq_true, beq_iff_eq]
  by_cases hu : a.user = b.user
  · have hd : a.device.data ≠ b.device.data := by
      intro e
      apply h
      cases a
      cases b
      simp only [Endpoint.mk.injEq]
      exact ⟨hu, String.ext e⟩
    rcases ordinalLtAux_total _ _ hd with h' | h'
    · exact Or.inl (Or.inr ⟨hu, h'⟩)
    · exact Or.inr (Or.inr ⟨hu.symm, h'⟩)
  · have hne : a.user.data ≠ b.user.data := fun e => hu (String.ext e)
    rcases ordinalLtAux_total _ _ hne with h' | h'
    · exact Or.inl (Or.inl h')
    · exact Or.inr (Or.inl h')

/-- C7: for two endpoints with different (user, device) pairs exactly one
composite key is the smaller one, exactly one side discards its own start, and
both sides, each applying the rule with local and peer swapped, take the same
start as the one in force: the side with the smaller key discards its own start
and accepts the other's, the side with the larger key keeps its start. -/
theorem glare_resolution_agrees (a b : Endpoint) (h : a ≠ b) :
    (compositeKeyLt a b = true ∧ compositeKeyLt b a = false ∨
      compositeKeyLt a b = false ∧ compositeKeyLt b a = true) ∧
    discardsOwnStart a b = !discardsOwnStart b a ∧
    keptStart a b = keptStart b a ∧
    (compositeKeyLt a b = true →
      discardsOwnStart a b = true ∧ discardsOwnStart b a = false ∧
        keptStart a b = b ∧ keptStart b a = b) := by
  have key : compositeKeyLt a b = true ∧ compositeKeyLt b a = false ∨
      compositeKeyLt a b = false ∧ compositeKeyLt b a = true := by
    rcases compositeKeyLt_total a b h with h' | h'
    · exact Or.inl ⟨h', compositeKeyLt_asymm a b h'⟩
    · exact Or.inr ⟨compositeKeyLt_asymm b a h', h'⟩
  refine ⟨key, ?_, ?_, ?_⟩
  · rcases key with ⟨h1, h2⟩ | ⟨h1, h2⟩ <;> simp [discardsOwnStart, h1, h2]
  · rcases key with ⟨h1, h2⟩ | ⟨h1, h2⟩ <;> simp [keptStart, discardsOwnStart, h1, h2]
  · intro h1
    have h2 := compositeKeyLt_asymm a b h1
    simp [keptStart, discardsOwnStart, h1, h2]

/-- C7, witness: alice and bob; alice has the smaller key and gives way, bob
keeps his start, and both take bob's start as the one in force. -/
theorem glare_resolution_agrees_witness :
    alice ≠ bob ∧
    compositeKeyLt alice bob = true ∧
    discardsOwnStart alice bob = true ∧
    discardsOwnStart bob alice = false ∧
    keptStart alice bob = bob ∧
    keptStart bob alice = bob :=
  ⟨by decide, by decide,
   (glare_resolution_agrees alice bob (by decide)).2.2.2 (by decide)⟩

end DeviceVerificationFlow
